import Mathlib

/-!  Verification of the representation-conversion core of `MZIBlockConv2d`
     (src/torchonn_maml/layers/mzi_conv2d.py).

     The layer keeps four encodings of a blocked weight tensor (dense weight,
     USV factorization, phase form, voltage form) consistent through the
     conversion methods `build_weight_from_usv`, `build_weight_from_phase`,
     `build_phase_from_usv`, `build_usv_from_weight`, `build_usv_from_phase`,
     `build_phase_from_weight`, `sync_parameters` and `build_weight`.

     Tensors of shape [grid_dim_y, grid_dim_x, ...] are embedded as functions
     out of `Fin R x Fin C`; scalar entries live in an arbitrary linear ordered
     field `F` (exact-arithmetic idealization of float32).  External
     collaborators of the layer (torch.linalg.svd, the batched unitary
     decomposer and mesh packing functions of `torchonn_maml.op`, the three
     PhaseQuantizer instances, and pyutils' `gen_gaussian_noise`) are embedded
     as an abstract operation bundle `Ops`; the contracts the spec states for
     them enter theorems as explicit hypotheses. -/

/-- A grid of per-block tensors, indexed [grid_dim_y, grid_dim_x]. -/
abbrev Grid (R C : ℕ) (α : Type) := Fin R → Fin C → α

/-- A miniblock: a k x k matrix per grid cell. -/
abbrev Blk (k : ℕ) (F : Type) := Fin k → Fin k → F

/-- A length-k vector per grid cell (S, delta_list_U, delta_list_V, phase_S). -/
abbrev BVec (k : ℕ) (F : Type) := Fin k → F

/-- The condensed mesh-angle vector of length k*(k-1)/2 (phase_U, phase_V). -/
abbrev PVec (k : ℕ) (F : Type) := Fin (k * (k - 1) / 2) → F

/-- The four parametrization modes accepted by the constructor. -/
inductive Mode : Type
  | weight
  | usv
  | phase
  | voltage
deriving DecidableEq

/-- The `update_list` argument of `build_weight_from_phase` and
    `build_usv_from_phase`.  A set (or dict) of sub-path names is modelled by
    the three membership booleans for the names phase_U, phase_S, phase_V.
    `sync_parameters(src="phase")` instead passes the tensor `self.S_scale`
    positionally into this parameter; membership tests on a torch tensor with
    a string raise, which the `tensorArg` constructor records. -/
inductive UpdateArg : Type
  | strs (hasU hasS hasV : Bool)
  | tensorArg
deriving DecidableEq

/-- The default update_list of build_weight_from_phase and build_weight:
    the full set of phase_U, phase_S, phase_V. -/
def fullUpdate : UpdateArg := UpdateArg.strs true true true

/-- Source-mode string constants used by sync_parameters. -/
def srcWeight : String := "weight"

def srcUsv : String := "usv"

def srcPhase : String := "phase"

def srcVoltage : String := "voltage"

/-- A sample mode string outside the four supported source modes. -/
def srcBogus : String := "fft"

/-- The error raised by the `raise NotImplementedError` statements. -/
def errNotImplemented : String := "NotImplementedError"

/-- The RuntimeError raised by torch when a membership test
    `str in tensor` is evaluated (Tensor.__contains__ rejects strings). -/
def errTensorContains : String :=
  "RuntimeError: Tensor.__contains__ only supports Tensor or scalar"

/-- The 1e-5 threshold the layer compares its noise configuration scalars
    against (`> 1e-5` in build_weight and sync_parameters). -/
def noiseEps : ℚ := 1 / 100000

/-- Buffer-name string constants, as used in build_parameters. -/
def nWeight : String := "weight"

def nU : String := "U"

def nS : String := "S"

def nV : String := "V"

def nPhaseU : String := "phase_U"

def nPhaseS : String := "phase_S"

def nPhaseV : String := "phase_V"

def nSscale : String := "S_scale"

def nDeltaU : String := "delta_list_U"

def nDeltaV : String := "delta_list_V"

/-- The ten representation tensors allocated by build_parameters, in the
    order of the registration dict at mzi_conv2d.py lines 218-229. -/
def allTensorNames : List String :=
  [nWeight, nU, nS, nV, nPhaseU, nPhaseS, nPhaseV, nSscale, nDeltaU, nDeltaV]

/-- External collaborators of the layer, bundled: batched SVD
    (torch.linalg.svd), the unitary decomposer and mesh packing functions
    (`self.decomposer.decompose/reconstruct/m2v/v2m`, from torchonn_maml.op),
    the three PhaseQuantizer instances, the sampled additive truncated
    gaussian noise of `gen_gaussian_noise`, and the scalar math functions
    acos / cos used on phase_S. -/
structure Ops (F : Type) (R C k : ℕ) : Type where
  svd : Grid R C (Blk k F) → Grid R C (Blk k F) × Grid R C (BVec k F) × Grid R C (Blk k F)
  decompose : Grid R C (Blk k F) → Grid R C (BVec k F) × Grid R C (Blk k F)
  reconstruct : Grid R C (BVec k F) → Grid R C (Blk k F) → Grid R C (Blk k F)
  m2v : Grid R C (Blk k F) → Grid R C (PVec k F)
  v2m : Grid R C (PVec k F) → Grid R C (Blk k F)
  quantU : Grid R C (PVec k F) → Grid R C (PVec k F)
  quantS : Grid R C (BVec k F) → Grid R C (BVec k F)
  quantV : Grid R C (PVec k F) → Grid R C (PVec k F)
  noiseU : Grid R C (PVec k F) → Grid R C (PVec k F)
  noiseV : Grid R C (PVec k F) → Grid R C (PVec k F)
  acos : F → F
  cos : F → F

/-- The per-instance state of an MZIBlockConv2d layer: the active mode, the
    quantization and noise configuration scalars, and the ten representation
    tensors allocated by build_parameters.  Configuration scalars are kept in
    exact rational arithmetic so the branch conditions of the source are
    decidable. -/
structure LayerState (F : Type) (R C k : ℕ) : Type where
  mode : Mode
  w_bit : ℤ
  gamma_noise_std : ℚ
  crosstalk_factor : ℚ
  phase_noise_std : ℚ
  weight : Grid R C (Blk k F)
  U : Grid R C (Blk k F)
  S : Grid R C (BVec k F)
  V : Grid R C (Blk k F)
  delta_list_U : Grid R C (BVec k F)
  delta_list_V : Grid R C (BVec k F)
  phase_U : Grid R C (PVec k F)
  phase_V : Grid R C (PVec k F)
  phase_S : Grid R C (BVec k F)
  S_scale : Grid R C F

section PointwiseOps

variable {F : Type} [LinearOrderedField F] {R C k : ℕ}

/-- `U.matmul(S.unsqueeze(-1) * V)`: per grid cell, the matrix product
    U * diag(S) * V (mzi_conv2d.py line 342). -/
def usvMulGrid (U : Grid R C (Blk k F)) (S : Grid R C (BVec k F))
    (V : Grid R C (Blk k F)) : Grid R C (Blk k F) :=
  fun i j a b => ∑ t, U i j a t * (S i j t * V i j t b)

/-- `phase_S.cos().mul_(S_scale)`: elementwise cosine scaled by the per-cell
    S_scale (broadcast over the last axis; lines 362 and 414). -/
def cosMulGrid (ops : Ops F R C k) (pS : Grid R C (BVec k F))
    (scale : Grid R C F) : Grid R C (BVec k F) :=
  fun i j t => ops.cos (pS i j t) * scale i j

/-- `S.div(S_scale).acos()`: elementwise division by the per-cell scale
    followed by arccos (lines 274 and 393). -/
def divAcosGrid (ops : Ops F R C k) (S : Grid R C (BVec k F))
    (scale : Grid R C F) : Grid R C (BVec k F) :=
  fun i j t => ops.acos (S i j t / scale i j)

/-- `S.abs().max(dim=-1, keepdim=True)[0]` on one block vector: the maximum
    absolute entry along the last axis. -/
def absMaxVec (v : BVec k F) : F :=
  (List.ofFn fun t => |v t|).foldr max 0

/-- The batched maximum absolute singular value per grid cell
    (lines 273 and 392). -/
def absMaxGrid (S : Grid R C (BVec k F)) : Grid R C F :=
  fun i j => absMaxVec (S i j)

/-- `phase_U + gen_gaussian_noise(phase_U, ...)`: additive sampled noise. -/
def addNoiseU (ops : Ops F R C k) (p : Grid R C (PVec k F)) : Grid R C (PVec k F) :=
  fun i j t => p i j t + ops.noiseU p i j t

/-- `phase_V + gen_gaussian_noise(phase_V, ...)`: additive sampled noise. -/
def addNoiseV (ops : Ops F R C k) (p : Grid R C (PVec k F)) : Grid R C (PVec k F) :=
  fun i j t => p i j t + ops.noiseV p i j t

end PointwiseOps

section LayerMethods

variable {F : Type} [LinearOrderedField F] {R C k : ℕ}

/-- `MZIBlockConv2d.build_weight_from_usv` (lines 340-344): computes
    `U.matmul(S.unsqueeze(-1) * V)`, stores it into the weight buffer,
    and returns it. -/
def build_weight_from_usv (st : LayerState F R C k) (U : Grid R C (Blk k F))
    (S : Grid R C (BVec k F)) (V : Grid R C (Blk k F)) :
    LayerState F R C k × Grid R C (Blk k F) :=
  let w := usvMulGrid U S V
  ({ st with weight := w }, w)

/-- The membership test `name in update_list` for the three sub-path names,
    in source order phase_U, phase_V, phase_S.  On a tensor argument the
    first test raises (torch Tensor.__contains__ rejects strings), before any
    buffer has been written. -/
def UpdateArg.hasPhaseU : UpdateArg → Except String Bool
  | UpdateArg.strs hU _ _ => Except.ok hU
  | UpdateArg.tensorArg => Except.error errTensorContains

def UpdateArg.hasPhaseS : UpdateArg → Except String Bool
  | UpdateArg.strs _ hS _ => Except.ok hS
  | UpdateArg.tensorArg => Except.error errTensorContains

def UpdateArg.hasPhaseV : UpdateArg → Except String Bool
  | UpdateArg.strs _ _ hV => Except.ok hV
  | UpdateArg.tensorArg => Except.error errTensorContains

/-- `MZIBlockConv2d.build_weight_from_phase` (lines 346-363): for each
    sub-path present in update_list, rebuild the corresponding factored-form
    buffer (U and V through the decomposer, S as `phase_S.cos().mul_(self.S_scale)`
    with the stored S_scale), then delegate to build_weight_from_usv on the
    current U, S, V buffers. -/
def build_weight_from_phase (ops : Ops F R C k) (st : LayerState F R C k)
    (delta_list_U : Grid R C (BVec k F)) (phase_U : Grid R C (PVec k F))
    (delta_list_V : Grid R C (BVec k F)) (phase_V : Grid R C (PVec k F))
    (phase_S : Grid R C (BVec k F)) (update_list : UpdateArg) :
    Except String (LayerState F R C k × Grid R C (Blk k F)) :=
  match update_list.hasPhaseU with
  | Except.error e => Except.error e
  | Except.ok hU =>
    let st1 := if hU then { st with U := ops.reconstruct delta_list_U (ops.v2m phase_U) } else st
    match update_list.hasPhaseV with
    | Except.error e => Except.error e
    | Except.ok hV =>
      let st2 := if hV then { st1 with V := ops.reconstruct delta_list_V (ops.v2m phase_V) } else st1
      match update_list.hasPhaseS with
      | Except.error e => Except.error e
      | Except.ok hS =>
        let st3 := if hS then { st2 with S := cosMulGrid ops phase_S st2.S_scale } else st2
        Except.ok (build_weight_from_usv st3 st3.U st3.S st3.V)

/-- `MZIBlockConv2d.build_phase_from_usv` (lines 381-395): decompose U and V
    independently, store the delta lists and condensed phase vectors, set
    S_scale to the per-cell maximum absolute singular value (keepdim) and
    phase_S to `S.div(S_scale).acos()`.  Returns the six stored tensors. -/
def build_phase_from_usv (ops : Ops F R C k) (st : LayerState F R C k)
    (U : Grid R C (Blk k F)) (S : Grid R C (BVec k F)) (V : Grid R C (Blk k F)) :
    LayerState F R C k ×
      (Grid R C (BVec k F) × Grid R C (PVec k F) × Grid R C (BVec k F) ×
       Grid R C (PVec k F) × Grid R C (BVec k F) × Grid R C F) :=
  let dU := (ops.decompose U).1
  let mU := (ops.decompose U).2
  let st1 := { st with delta_list_U := dU, phase_U := ops.m2v mU }
  let dV := (ops.decompose V).1
  let mV := (ops.decompose V).2
  let st2 := { st1 with delta_list_V := dV, phase_V := ops.m2v mV }
  let sc := absMaxGrid S
  let st3 := { st2 with S_scale := sc, phase_S := divAcosGrid ops S sc }
  (st3, (st3.delta_list_U, st3.phase_U, st3.delta_list_V, st3.phase_V, st3.phase_S, st3.S_scale))

/-- `MZIBlockConv2d.build_usv_from_phase` (lines 397-415): like
    build_weight_from_phase but rebuilds S from the S_scale passed as an
    argument, and returns the (U, S, V) buffers instead of a weight. -/
def build_usv_from_phase (ops : Ops F R C k) (st : LayerState F R C k)
    (delta_list_U : Grid R C (BVec k F)) (phase_U : Grid R C (PVec k F))
    (delta_list_V : Grid R C (BVec k F)) (phase_V : Grid R C (PVec k F))
    (phase_S : Grid R C (BVec k F)) (S_scale : Grid R C F) (update_list : UpdateArg) :
    Except String (LayerState F R C k ×
      (Grid R C (Blk k F) × Grid R C (BVec k F) × Grid R C (Blk k F))) :=
  match update_list.hasPhaseU with
  | Except.error e => Except.error e
  | Except.ok hU =>
    let st1 := if hU then { st with U := ops.reconstruct delta_list_U (ops.v2m phase_U) } else st
    match update_list.hasPhaseV with
    | Except.error e => Except.error e
    | Except.ok hV =>
      let st2 := if hV then { st1 with V := ops.reconstruct delta_list_V (ops.v2m phase_V) } else st1
      match update_list.hasPhaseS with
      | Except.error e => Except.error e
      | Except.ok hS =>
        let st3 := if hS then { st2 with S := cosMulGrid ops phase_S S_scale } else st2
        Except.ok (st3, (st3.U, st3.S, st3.V))

/-- `MZIBlockConv2d.build_usv_from_weight` (lines 417-425): batched SVD of the
    weight, stored into the U, S, V buffers and returned. -/
def build_usv_from_weight (ops : Ops F R C k) (st : LayerState F R C k)
    (weight : Grid R C (Blk k F)) :
    LayerState F R C k ×
      (Grid R C (Blk k F) × Grid R C (BVec k F) × Grid R C (Blk k F)) :=
  let t := ops.svd weight
  ({ st with U := t.1, S := t.2.1, V := t.2.2 }, t)

/-- `MZIBlockConv2d.build_phase_from_weight` (lines 427-428):
    build_phase_from_usv applied to the triple returned by
    build_usv_from_weight. -/
def build_phase_from_weight (ops : Ops F R C k) (st : LayerState F R C k)
    (weight : Grid R C (Blk k F)) :
    LayerState F R C k ×
      (Grid R C (BVec k F) × Grid R C (PVec k F) × Grid R C (BVec k F) ×
       Grid R C (PVec k F) × Grid R C (BVec k F) × Grid R C F) :=
  let r := build_usv_from_weight ops st weight
  build_phase_from_usv ops r.1 r.2.1 r.2.2.1 r.2.2.2

/-- The local phase tensors computed by `build_weight` in phase mode
    (lines 510-535): quantize all three stored phases when
    `w_bit < 16 or gamma_noise_std > 1e-5 or crosstalk_factor > 1e-5`,
    otherwise take them unchanged; then, when `phase_noise_std > 1e-5`, add
    sampled truncated-gaussian noise to phase_U and phase_V only
    (phase_S is protected).  Result ordered as (phase_U, phase_S, phase_V). -/
def bwPhaseLocals (ops : Ops F R C k) (st : LayerState F R C k) :
    Grid R C (PVec k F) × Grid R C (BVec k F) × Grid R C (PVec k F) :=
  let q :=
    if st.w_bit < 16 ∨ noiseEps < st.gamma_noise_std ∨ noiseEps < st.crosstalk_factor then
      (ops.quantU st.phase_U, ops.quantS st.phase_S, ops.quantV st.phase_V)
    else
      (st.phase_U, st.phase_S, st.phase_V)
  if noiseEps < st.phase_noise_std then
    (addNoiseU ops q.1, q.2.1, addNoiseV ops q.2.2)
  else q

/-- The local phase tensors computed by `sync_parameters(src="phase")`
    (lines 472-494): same structure as bwPhaseLocals, but the quantizers are
    gated on `w_bit < 16` alone. -/
def syncPhaseLocals (ops : Ops F R C k) (st : LayerState F R C k) :
    Grid R C (PVec k F) × Grid R C (BVec k F) × Grid R C (PVec k F) :=
  let q :=
    if st.w_bit < 16 then
      (ops.quantU st.phase_U, ops.quantS st.phase_S, ops.quantV st.phase_V)
    else
      (st.phase_U, st.phase_S, st.phase_V)
  if noiseEps < st.phase_noise_std then
    (addNoiseU ops q.1, q.2.1, addNoiseV ops q.2.2)
  else q

/-- `MZIBlockConv2d.sync_parameters` (lines 463-500).  Note two source
    facts embedded faithfully: in the phase branch the sixth positional
    argument of the build_weight_from_phase call is `self.S_scale`, which
    lands in its update_list parameter (line 496); and the voltage branch
    consists of the bare expression `NotImplementedError` without `raise`,
    so it returns normally with no state change (line 498). -/
def sync_parameters (ops : Ops F R C k) (st : LayerState F R C k) (src : String) :
    Except String (LayerState F R C k) :=
  if src = srcWeight then
    Except.ok (build_phase_from_weight ops st st.weight).1
  else if src = srcUsv then
    let st1 := (build_phase_from_usv ops st st.U st.S st.V).1
    Except.ok (build_weight_from_usv st1 st1.U st1.S st1.V).1
  else if src = srcPhase then
    let p := syncPhaseLocals ops st
    (build_weight_from_phase ops st st.delta_list_U p.1 st.delta_list_V p.2.2 p.2.1
        UpdateArg.tensorArg).map Prod.fst
  else if src = srcVoltage then
    Except.ok st
  else
    Except.error errNotImplemented

/-- `MZIBlockConv2d.build_weight` (lines 502-544): dispatch on the active
    mode; in phase mode quantize/perturb the stored phases just-in-time
    (bwPhaseLocals) and rebuild through build_weight_from_phase with the
    caller's update_list. -/
def build_weight (ops : Ops F R C k) (st : LayerState F R C k)
    (update_list : UpdateArg) :
    Except String (LayerState F R C k × Grid R C (Blk k F)) :=
  match st.mode with
  | Mode.weight => Except.ok (st, st.weight)
  | Mode.usv => Except.ok (build_weight_from_usv st st.U st.S st.V)
  | Mode.phase =>
    let p := bwPhaseLocals ops st
    build_weight_from_phase ops st st.delta_list_U p.1 st.delta_list_V p.2.2 p.2.1 update_list
  | Mode.voltage => Except.error errNotImplemented

end LayerMethods

/-- `MZIBlockConv2d.build_parameters` (lines 182-231), viewed through the
    host framework's registration protocol: per mode, the branch turns one
    representation set into trainable Parameters; the final loop then
    registers every one of the ten tensors that is not already an attribute
    as a non-trainable buffer.  Returns (parameter names, buffer names);
    voltage and unknown modes raise NotImplementedError. -/
def build_parameters (mode : String) : Except String (List String × List String) :=
  let mk : List String → Except String (List String × List String) := fun ps =>
    Except.ok (ps, allTensorNames.filter fun n => ¬ ps.contains n)
  if mode = srcWeight then mk [nWeight]
  else if mode = srcUsv then mk [nU, nS, nV]
  else if mode = srcPhase then mk [nPhaseU, nPhaseS, nPhaseV, nSscale]
  else Except.error errNotImplemented

/-- `int(np.ceil(a / b))` for natural a, b: the grid dimensions
    grid_dim_y = ceil(out_channels / miniblock) and
    grid_dim_x = ceil(in_channels_flat / miniblock). -/
def ceilDiv (a b : ℕ) : ℕ := (a + b - 1) / b

section FromLayer

variable {F : Type} [LinearOrderedField F] {out inflat : ℕ}

/-- The zero-initialized padded matrix `tmp` of from_layer (lines 329-330):
    `torch.zeros(out_channels_pad, in_channels_pad)` with the flattened
    pretrained weight copied into its top-left [out, in_channels_flat]
    corner.  Total over plain naturals; the padding region is exactly 0. -/
def paddedEntry (Wd : Fin out → Fin inflat → F) (r c : ℕ) : F :=
  if h : r < out ∧ c < inflat then Wd ⟨r, h.1⟩ ⟨c, h.2⟩ else 0

/-- The block tiling of from_layer (lines 331-333):
    `tmp.view(gy, k, gx, k).permute(0, 2, 1, 3)`, so block (i, j) holds the
    k x k window of tmp whose top-left corner is (i*k, j*k). -/
def tileWeight (k : ℕ) (Wd : Fin out → Fin inflat → F) :
    Grid (ceilDiv out k) (ceilDiv inflat k) (Blk k F) :=
  fun i j a b => paddedEntry Wd (i.1 * k + a.1) (j.1 * k + b.1)

/-- `MZIBlockConv2d.from_layer` (lines 284-338), past construction: the
    freshly constructed instance state st0 receives the block-tiled padded
    pretrained weight into its weight buffer, then sync_parameters(src="weight")
    is called exactly once.  That call cannot fail; the error arm is a
    formal fallback only. -/
def from_layer (k : ℕ) (ops : Ops F (ceilDiv out k) (ceilDiv inflat k) k)
    (st0 : LayerState F (ceilDiv out k) (ceilDiv inflat k) k)
    (Wd : Fin out → Fin inflat → F) :
    LayerState F (ceilDiv out k) (ceilDiv inflat k) k :=
  let st1 := { st0 with weight := tileWeight k Wd }
  match sync_parameters ops st1 srcWeight with
  | Except.ok s => s
  | Except.error _ => st1

end FromLayer

section IEEEModel

variable {F : Type} [LinearOrderedField F]

/-- Modelled from the spec: the float semantics of the torch scalar ops used
    at mzi_conv2d.py lines 273-274 and 392-393, where the spec (section 7 and
    the design notes) discusses NaN propagation that exact field arithmetic
    cannot express.  `none` stands for a non-finite float (NaN or an
    infinity): dividing by a zero scale yields 0/0 = NaN or x/0 = inf. -/
def divIEEE (a b : F) : Option F := if b = 0 then none else some (a / b)

/-- Modelled from the spec: `S.div(S_scale).acos()` under float semantics.
    acos of NaN or of an infinity is NaN, so non-finiteness propagates
    through the map. -/
def phaseSEntryIEEE (acos : F → F) (s scale : F) : Option F :=
  (divIEEE s scale).map acos

/-- Modelled from the spec: the reconstruction `phase_S.cos().mul_(S_scale)`
    of one singular value under float semantics; cos(NaN) = NaN and
    NaN * 0 = NaN, so a non-finite phase makes the rebuilt S non-finite. -/
def reconSEntryIEEE (acos cos : F → F) (s scale : F) : Option F :=
  (phaseSEntryIEEE acos s scale).map fun p => cos p * scale

end IEEEModel

/-- Modelled from the spec: the round-trip contract of the unitary
    decomposer and its mesh packing (spec sections 4.1 and 4.2: reconstruct
    after decompose recovers the matrix, and the condensed-vector packing
    round-trips losslessly).  The implementing code
    (`RealUnitaryDecomposerBatch`, `vector_to_checkerboard`,
    `checkerboard_to_vector`, ... in torchonn_maml/op) is not under src/,
    so the contract is stated on the abstract operation bundle exactly as
    the layer composes the four functions. -/
def DecomposerRoundTrip {F : Type} [LinearOrderedField F] {R C k : ℕ}
    (ops : Ops F R C k) (M : Grid R C (Blk k F)) : Prop :=
  ops.reconstruct (ops.decompose M).1 (ops.v2m (ops.m2v (ops.decompose M).2)) = M

/-- The contract of torch.linalg.svd (an external collaborator) on a given
    input: the returned triple multiplies back to the input and the singular
    values are nonnegative. -/
def ExactSVD {F : Type} [LinearOrderedField F] {R C k : ℕ}
    (ops : Ops F R C k) (w : Grid R C (Blk k F)) : Prop :=
  usvMulGrid (ops.svd w).1 (ops.svd w).2.1 (ops.svd w).2.2 = w ∧
    ∀ i j t, 0 ≤ (ops.svd w).2.1 i j t

/-- A concrete rational operation bundle on a 1 x 1 grid of 1 x 1 blocks,
    used to evaluate the layer methods on explicit inputs.  The S quantizer
    shifts by one so that quantized and raw phases are distinguishable. -/
def opsQ : Ops ℚ 1 1 1 where
  svd := fun w => (w, (fun _ _ _ => 1), fun _ _ _ _ => 1)
  decompose := fun M => ((fun _ _ _ => 0), M)
  reconstruct := fun _ M => M
  m2v := fun _ _ _ => Fin.elim0
  v2m := fun _ _ _ _ _ => 1
  quantU := fun p => p
  quantS := fun g i j t => g i j t + 1
  quantV := fun p => p
  noiseU := fun _ _ _ _ => 7
  noiseV := fun _ _ _ _ => 7
  acos := id
  cos := id

/-- A concrete phase-mode layer state over opsQ: bit-width 32, all noise
    configuration scalars zero. -/
def stQ : LayerState ℚ 1 1 1 where
  mode := Mode.phase
  w_bit := 32
  gamma_noise_std := 0
  crosstalk_factor := 0
  phase_noise_std := 0
  weight := fun _ _ _ _ => 0
  U := fun _ _ _ _ => 1
  S := fun _ _ _ => 2
  V := fun _ _ _ _ => 1
  delta_list_U := fun _ _ _ => 0
  delta_list_V := fun _ _ _ => 0
  phase_U := fun _ _ => Fin.elim0
  phase_V := fun _ _ => Fin.elim0
  phase_S := fun _ _ _ => 0
  S_scale := fun _ _ => 1

/-- stQ with gamma noise enabled (std 1 > 1e-5) but bit-width still 32. -/
def stGamma : LayerState ℚ 1 1 1 := { stQ with gamma_noise_std := 1 }

/-- An all-zero singular-value grid over the 1 x 1 setting. -/
def zeroSGrid : Grid 1 1 (BVec 1 ℚ) := fun _ _ _ => 0

/-- Modelled from the spec where real analysis is needed: the real-number
    operation bundle whose scalar maps are the genuine arccos and cos, with
    identity-like decomposition on 1 x 1 blocks (for which the mesh is empty
    and the decomposer contract holds definitionally). -/
noncomputable def opsR : Ops ℝ 1 1 1 where
  svd := fun _ => ((fun _ _ _ _ => 1), (fun _ _ _ => 2), fun _ _ _ _ => 1)
  decompose := fun M => ((fun _ _ _ => 0), M)
  reconstruct := fun _ M => M
  m2v := fun _ _ _ => Fin.elim0
  v2m := fun _ _ _ _ _ => 1
  quantU := fun p => p
  quantS := fun g => g
  quantV := fun p => p
  noiseU := fun p => p
  noiseV := fun p => p
  acos := Real.arccos
  cos := Real.cos

/-- A real-valued layer state whose weight is the constant-2 grid. -/
noncomputable def stR : LayerState ℝ 1 1 1 where
  mode := Mode.weight
  w_bit := 32
  gamma_noise_std := 0
  crosstalk_factor := 0
  phase_noise_std := 0
  weight := fun _ _ _ _ => 2
  U := fun _ _ _ _ => 1
  S := fun _ _ _ => 2
  V := fun _ _ _ _ => 1
  delta_list_U := fun _ _ _ => 0
  delta_list_V := fun _ _ _ => 0
  phase_U := fun _ _ => Fin.elim0
  phase_V := fun _ _ => Fin.elim0
  phase_S := fun _ _ _ => 0
  S_scale := fun _ _ => 1

/-- The constant-2 dense weight grid over the reals. -/
noncomputable def wR : Grid 1 1 (Blk 1 ℝ) := fun _ _ _ _ => 2

/-- A concrete 1 x 1 pretrained dense weight for the from_layer path. -/
def wdQ : Fin 1 → Fin 1 → ℚ := fun _ _ => 5

section MaxLemmas

variable {F : Type} [LinearOrderedField F] {k : ℕ}

/-- A fold of max over a list, seeded with 0, is nonnegative. -/
theorem foldr_max_nonneg (l : List F) : 0 ≤ l.foldr max 0 := by
  induction l with
  | nil => exact le_refl 0
  | cons a l ih => exact le_trans ih (le_max_right a _)

/-- Every member of a list bounds from below its max fold seeded with 0. -/
theorem le_foldr_max {l : List F} {x : F} (hx : x ∈ l) : x ≤ l.foldr max 0 := by
  induction l with
  | nil => cases hx
  | cons a l ih =>
    rcases List.mem_cons.mp hx with h | h
    · subst h; exact le_max_left x _
    · exact le_trans (ih h) (le_max_right a _)

/-- A max fold seeded with 0 is the seed or one of the list members. -/
theorem foldr_max_choice (l : List F) : l.foldr max 0 = 0 ∨ l.foldr max 0 ∈ l := by
  induction l with
  | nil => exact Or.inl rfl
  | cons a l ih =>
    have hfold : (a :: l).foldr max 0 = max a (l.foldr max 0) := rfl
    rcases max_choice a (l.foldr max 0) with h | h
    · right
      rw [hfold, h]
      exact List.mem_cons_self a l
    · rcases ih with h0 | hm
      · left
        rw [hfold, h, h0]
      · right
        rw [hfold, h]
        exact List.mem_cons_of_mem a hm

/-- The per-block maximum absolute value bounds every entry. -/
theorem le_absMaxVec (v : BVec k F) (t : Fin k) : |v t| ≤ absMaxVec v :=
  le_foldr_max ((List.mem_ofFn _ _).mpr ⟨t, rfl⟩)

/-- The per-block maximum absolute value is nonnegative. -/
theorem absMaxVec_nonneg (v : BVec k F) : 0 ≤ absMaxVec v :=
  foldr_max_nonneg _

/-- On a nonempty block, the maximum absolute value is attained. -/
theorem absMaxVec_attained (v : BVec k F) (hk : 0 < k) :
    ∃ t, absMaxVec v = |v t| := by
  rcases foldr_max_choice (List.ofFn fun t => |v t|) with h0 | hm
  · refine ⟨⟨0, hk⟩, ?_⟩
    have hb : |v ⟨0, hk⟩| ≤ absMaxVec v := le_absMaxVec v ⟨0, hk⟩
    have hz : absMaxVec v = 0 := h0
    have hv : |v ⟨0, hk⟩| = 0 := le_antisymm (hz ▸ hb) (abs_nonneg _)
    rw [hv, hz]
  · obtain ⟨t, ht⟩ := (List.mem_ofFn _ _).mp hm
    exact ⟨t, ht.symm⟩

/-- On an all-zero block, the maximum absolute value is 0. -/
theorem absMaxVec_zero (v : BVec k F) (h : ∀ t, v t = 0) : absMaxVec v = 0 := by
  rcases foldr_max_choice (List.ofFn fun t => |v t|) with h0 | hm
  · exact h0
  · obtain ⟨t, ht⟩ := (List.mem_ofFn _ _).mp hm
    rw [show absMaxVec v = |v t| from ht.symm, h t, abs_zero]

end MaxLemmas

section ReductionLemmas

variable {F : Type} [LinearOrderedField F] {R C k : ℕ}

/-- build_weight_from_phase on a set-valued update_list: reconstruct the
    selected sub-paths, keep the cached ones, rebuild the weight from the
    resulting factored form. -/
theorem build_weight_from_phase_strs (ops : Ops F R C k) (st : LayerState F R C k)
    (dU : Grid R C (BVec k F)) (pU : Grid R C (PVec k F))
    (dV : Grid R C (BVec k F)) (pV : Grid R C (PVec k F))
    (pS : Grid R C (BVec k F)) (bU bS bV : Bool) :
    build_weight_from_phase ops st dU pU dV pV pS (UpdateArg.strs bU bS bV) =
      Except.ok
        ({ st with
            U := if bU then ops.reconstruct dU (ops.v2m pU) else st.U,
            V := if bV then ops.reconstruct dV (ops.v2m pV) else st.V,
            S := if bS then cosMulGrid ops pS st.S_scale else st.S,
            weight := usvMulGrid (if bU then ops.reconstruct dU (ops.v2m pU) else st.U)
              (if bS then cosMulGrid ops pS st.S_scale else st.S)
              (if bV then ops.reconstruct dV (ops.v2m pV) else st.V) },
         usvMulGrid (if bU then ops.reconstruct dU (ops.v2m pU) else st.U)
           (if bS then cosMulGrid ops pS st.S_scale else st.S)
           (if bV then ops.reconstruct dV (ops.v2m pV) else st.V)) := by
  cases bU <;> cases bS <;> cases bV <;> rfl

/-- build_usv_from_phase on a set-valued update_list. -/
theorem build_usv_from_phase_strs (ops : Ops F R C k) (st : LayerState F R C k)
    (dU : Grid R C (BVec k F)) (pU : Grid R C (PVec k F))
    (dV : Grid R C (BVec k F)) (pV : Grid R C (PVec k F))
    (pS : Grid R C (BVec k F)) (Ssc : Grid R C F) (bU bS bV : Bool) :
    build_usv_from_phase ops st dU pU dV pV pS Ssc (UpdateArg.strs bU bS bV) =
      Except.ok
        ({ st with
            U := if bU then ops.reconstruct dU (ops.v2m pU) else st.U,
            V := if bV then ops.reconstruct dV (ops.v2m pV) else st.V,
            S := if bS then cosMulGrid ops pS Ssc else st.S },
         ((if bU then ops.reconstruct dU (ops.v2m pU) else st.U),
          (if bS then cosMulGrid ops pS Ssc else st.S),
          (if bV then ops.reconstruct dV (ops.v2m pV) else st.V))) := by
  cases bU <;> cases bS <;> cases bV <;> rfl

/-- build_weight_from_phase on a tensor-valued update_list raises at the
    first membership test, before any buffer is written. -/
theorem build_weight_from_phase_tensor (ops : Ops F R C k) (st : LayerState F R C k)
    (dU : Grid R C (BVec k F)) (pU : Grid R C (PVec k F))
    (dV : Grid R C (BVec k F)) (pV : Grid R C (PVec k F))
    (pS : Grid R C (BVec k F)) :
    build_weight_from_phase ops st dU pU dV pV pS UpdateArg.tensorArg =
      Except.error errTensorContains := rfl

/-- The first projection of build_phase_from_weight, fully materialized. -/
theorem build_phase_from_weight_fst (ops : Ops F R C k) (st : LayerState F R C k)
    (w : Grid R C (Blk k F)) :
    (build_phase_from_weight ops st w).1 =
      { st with
          U := (ops.svd w).1,
          S := (ops.svd w).2.1,
          V := (ops.svd w).2.2,
          delta_list_U := (ops.decompose (ops.svd w).1).1,
          phase_U := ops.m2v (ops.decompose (ops.svd w).1).2,
          delta_list_V := (ops.decompose (ops.svd w).2.2).1,
          phase_V := ops.m2v (ops.decompose (ops.svd w).2.2).2,
          S_scale := absMaxGrid (ops.svd w).2.1,
          phase_S := divAcosGrid ops (ops.svd w).2.1 (absMaxGrid (ops.svd w).2.1) } := rfl

/-- build_weight in phase mode delegates to build_weight_from_phase on the
    just-in-time quantized / perturbed phase locals. -/
theorem build_weight_phase_eq (ops : Ops F R C k) (st : LayerState F R C k)
    (upd : UpdateArg) (h : st.mode = Mode.phase) :
    build_weight ops st upd =
      build_weight_from_phase ops st st.delta_list_U (bwPhaseLocals ops st).1
        st.delta_list_V (bwPhaseLocals ops st).2.2 (bwPhaseLocals ops st).2.1 upd := by
  unfold build_weight
  rw [h]

end ReductionLemmas

section ClaimTheorems

variable {F : Type} [LinearOrderedField F] {R C k : ℕ}

/-- Claim C3 (code_bug evaluation): for src="voltage" the sync_parameters
    branch consists of the bare expression `NotImplementedError` without a
    raise, so the call returns normally and leaves the whole state unchanged
    — it silently no-ops instead of failing as the claim requires.  For any
    source string outside the four known ones, the final else branch does
    raise NotImplementedError. -/
theorem C3_sync_voltage_silent_noop (ops : Ops F R C k) (st : LayerState F R C k) :
    sync_parameters ops st srcVoltage = Except.ok st ∧
    ∀ src : String, src ∉ [srcWeight, srcUsv, srcPhase, srcVoltage] →
      sync_parameters ops st src = Except.error errNotImplemented := by
  constructor
  · rfl
  · intro src h
    simp only [List.mem_cons, not_or] at h
    obtain ⟨h1, h2, h3, h4, -⟩ := h
    unfold sync_parameters
    rw [if_neg h1, if_neg h2, if_neg h3, if_neg h4]

/-- Claim C3 witness: the silent no-op and the raising branch evaluated on a
    concrete layer state and a concrete unknown source string. -/
theorem C3_sync_voltage_silent_noop_witness :
    sync_parameters opsQ stQ srcVoltage = Except.ok stQ ∧
    sync_parameters opsQ stQ srcBogus = Except.error errNotImplemented :=
  ⟨(C3_sync_voltage_silent_noop opsQ stQ).1,
   (C3_sync_voltage_silent_noop opsQ stQ).2 srcBogus (by decide)⟩

/-- Claim C4: build_phase_from_usv sets S_scale to the maximum of the
    absolute singular values along the block's last axis, per grid cell
    (stated by its defining property: an attained upper bound), and sets
    phase_S elementwise to arccos of S divided by that per-cell scale. -/
theorem C4_phase_from_usv_scale (ops : Ops F R C k) (st : LayerState F R C k)
    (U : Grid R C (Blk k F)) (S : Grid R C (BVec k F)) (V : Grid R C (Blk k F))
    (hk : 0 < k) (i : Fin R) (j : Fin C) :
    (∀ t, |S i j t| ≤ ((build_phase_from_usv ops st U S V).1).S_scale i j) ∧
    (∃ t, ((build_phase_from_usv ops st U S V).1).S_scale i j = |S i j t|) ∧
    (∀ t, ((build_phase_from_usv ops st U S V).1).phase_S i j t =
        ops.acos (S i j t / ((build_phase_from_usv ops st U S V).1).S_scale i j)) := by
  have hscale : ((build_phase_from_usv ops st U S V).1).S_scale = absMaxGrid S := rfl
  have hps : ((build_phase_from_usv ops st U S V).1).phase_S =
      divAcosGrid ops S (absMaxGrid S) := rfl
  rw [hscale, hps]
  exact ⟨fun t => le_absMaxVec _ t, absMaxVec_attained _ hk, fun t => rfl⟩

/-- Claim C4 witness: the attained-maximum property of the stored S_scale,
    evaluated on a concrete factored-form input. -/
theorem C4_phase_from_usv_scale_witness :
    ∃ t, ((build_phase_from_usv opsQ stQ stQ.U stQ.S stQ.V).1).S_scale 0 0 = |stQ.S 0 0 t| :=
  (C4_phase_from_usv_scale opsQ stQ stQ.U stQ.S stQ.V (by decide) 0 0).2.1

/-- Claim C5 counterexample: on an all-zero singular-value block the computed
    scale `max(abs(S))` is exactly 0, and under float semantics the unguarded
    `S.div(S_scale).acos()` of lines 273-274 and 392-393 produces a
    non-finite phase_S (0/0 is NaN), which also makes the rebuilt
    `cos(phase_S) * S_scale` non-finite — the code has no safe fallback. -/
theorem C5_zero_scale_counterexample :
    absMaxVec (fun _ : Fin 2 => (0 : ℚ)) = 0 ∧
    phaseSEntryIEEE (id : ℚ → ℚ) 0 (absMaxVec fun _ : Fin 2 => (0 : ℚ)) = none ∧
    reconSEntryIEEE (id : ℚ → ℚ) id 0 (absMaxVec fun _ : Fin 2 => (0 : ℚ)) = none := by
  refine ⟨?_, ?_, ?_⟩ <;> decide

/-- Claim C5 (amended): build_phase_from_usv computes the scale of an
    all-zero singular-value block as exactly 0 and divides by it with no
    guard; under float semantics every resulting phase_S entry and every
    rebuilt singular value of that block is non-finite (NaN). -/
theorem C5_zero_scale_amended (ops : Ops F R C k) (st : LayerState F R C k)
    (U : Grid R C (Blk k F)) (S : Grid R C (BVec k F)) (V : Grid R C (Blk k F))
    (i : Fin R) (j : Fin C) (hz : ∀ t, S i j t = 0) :
    ((build_phase_from_usv ops st U S V).1).S_scale i j = 0 ∧
    ∀ t, phaseSEntryIEEE ops.acos (S i j t)
          (((build_phase_from_usv ops st U S V).1).S_scale i j) = none ∧
        reconSEntryIEEE ops.acos ops.cos (S i j t)
          (((build_phase_from_usv ops st U S V).1).S_scale i j) = none := by
  have h0 : ((build_phase_from_usv ops st U S V).1).S_scale i j = 0 := by
    show absMaxVec (S i j) = 0
    exact absMaxVec_zero _ hz
  refine ⟨h0, fun t => ?_⟩
  rw [h0]
  unfold reconSEntryIEEE phaseSEntryIEEE divIEEE
  simp

/-- Claim C5 witness: the zero-scale NaN production evaluated on a concrete
    all-zero singular-value grid. -/
theorem C5_zero_scale_amended_witness :
    ((build_phase_from_usv opsQ stQ stQ.U zeroSGrid stQ.V).1).S_scale 0 0 = 0 ∧
    phaseSEntryIEEE opsQ.acos (zeroSGrid 0 0 0)
      (((build_phase_from_usv opsQ stQ stQ.U zeroSGrid stQ.V).1).S_scale 0 0) = none :=
  ⟨(C5_zero_scale_amended opsQ stQ stQ.U zeroSGrid stQ.V 0 0 fun _ => rfl).1,
   ((C5_zero_scale_amended opsQ stQ stQ.U zeroSGrid stQ.V 0 0 fun _ => rfl).2 0).1⟩

/-- Claim C6 counterexample: in phase mode, build_parameters registers
    exactly phase_U, phase_S, phase_V and S_scale as trainable parameters;
    delta_list_U and delta_list_V land in the buffer loop, contradicting the
    claim that the deltas are part of the trainable set. -/
theorem C6_registration_counterexample :
    build_parameters srcPhase =
      Except.ok ([nPhaseU, nPhaseS, nPhaseV, nSscale],
        [nWeight, nU, nS, nV, nDeltaU, nDeltaV]) ∧
    nDeltaU ∉ [nPhaseU, nPhaseS, nPhaseV, nSscale] ∧
    nDeltaV ∉ [nPhaseU, nPhaseS, nPhaseV, nSscale] := by
  refine ⟨rfl, by decide, by decide⟩

/-- Claim C6 (amended): per active mode, build_parameters registers exactly
    one representation set as trainable — weight for "weight", (U, S, V) for
    "usv", and (phase_U, phase_S, phase_V, S_scale) for "phase" — registers
    every remaining tensor of the ten as a non-trainable buffer, registers
    each tensor exactly once, and raises for "voltage" and unknown modes. -/
theorem C6_registration_amended :
    build_parameters srcWeight =
      Except.ok ([nWeight],
        [nU, nS, nV, nPhaseU, nPhaseS, nPhaseV, nSscale, nDeltaU, nDeltaV]) ∧
    build_parameters srcUsv =
      Except.ok ([nU, nS, nV],
        [nWeight, nPhaseU, nPhaseS, nPhaseV, nSscale, nDeltaU, nDeltaV]) ∧
    build_parameters srcPhase =
      Except.ok ([nPhaseU, nPhaseS, nPhaseV, nSscale],
        [nWeight, nU, nS, nV, nDeltaU, nDeltaV]) ∧
    build_parameters srcVoltage = Except.error errNotImplemented ∧
    (∀ n ∈ allTensorNames,
      ([nWeight] ++
        [nU, nS, nV, nPhaseU, nPhaseS, nPhaseV, nSscale, nDeltaU, nDeltaV]).count n = 1 ∧
      ([nU, nS, nV] ++
        [nWeight, nPhaseU, nPhaseS, nPhaseV, nSscale, nDeltaU, nDeltaV]).count n = 1 ∧
      ([nPhaseU, nPhaseS, nPhaseV, nSscale] ++
        [nWeight, nU, nS, nV, nDeltaU, nDeltaV]).count n = 1) := by
  refine ⟨rfl, rfl, rfl, rfl, by decide⟩

/-- Claim C7: in phase mode, build_weight never writes the stored phase-form
    buffers: phase_U, phase_S, phase_V, S_scale, delta_list_U, delta_list_V
    are all unchanged in the resulting state, for every quantization and
    noise configuration (the configuration lives in st and the quantizer and
    noise behaviors in ops, both universally quantified). -/
theorem C7_build_weight_frame (ops : Ops F R C k) (st : LayerState F R C k)
    (bU bS bV : Bool) (hmode : st.mode = Mode.phase) :
    ∃ st' w', build_weight ops st (UpdateArg.strs bU bS bV) = Except.ok (st', w') ∧
      st'.phase_U = st.phase_U ∧ st'.phase_S = st.phase_S ∧ st'.phase_V = st.phase_V ∧
      st'.S_scale = st.S_scale ∧ st'.delta_list_U = st.delta_list_U ∧
      st'.delta_list_V = st.delta_list_V := by
  rw [build_weight_phase_eq ops st _ hmode, build_weight_from_phase_strs]
  exact ⟨_, _, rfl, rfl, rfl, rfl, rfl, rfl, rfl⟩

/-- Claim C7 witness: the frame property evaluated on a concrete phase-mode
    layer. -/
theorem C7_build_weight_frame_witness :
    ∃ st' w', build_weight opsQ stQ (UpdateArg.strs true true true) = Except.ok (st', w') ∧
      st'.phase_S = stQ.phase_S ∧ st'.S_scale = stQ.S_scale := by
  obtain ⟨st', w', h, h1, h2, h3, h4, h5, h6⟩ := C7_build_weight_frame opsQ stQ true true true rfl
  exact ⟨st', w', h, h2, h4⟩

/-- Claim C8: for build_weight_from_phase and build_usv_from_phase with a
    set-valued update_list, every omitted sub-path leaves its cached
    factored-form tensor unchanged, every present sub-path is reconstructed,
    and the returned weight (resp. triple) is computed from the resulting
    cached values. -/
theorem C8_update_list_frame (ops : Ops F R C k) (st : LayerState F R C k)
    (dU : Grid R C (BVec k F)) (pU : Grid R C (PVec k F))
    (dV : Grid R C (BVec k F)) (pV : Grid R C (PVec k F))
    (pS : Grid R C (BVec k F)) (Ssc : Grid R C F) (bU bS bV : Bool) :
    (∃ st' w', build_weight_from_phase ops st dU pU dV pV pS (UpdateArg.strs bU bS bV) =
        Except.ok (st', w') ∧
      ((bU = false → st'.U = st.U) ∧ (bU = true → st'.U = ops.reconstruct dU (ops.v2m pU))) ∧
      ((bV = false → st'.V = st.V) ∧ (bV = true → st'.V = ops.reconstruct dV (ops.v2m pV))) ∧
      ((bS = false → st'.S = st.S) ∧ (bS = true → st'.S = cosMulGrid ops pS st.S_scale)) ∧
      w' = usvMulGrid st'.U st'.S st'.V ∧ st'.weight = w') ∧
    (∃ st2 r, build_usv_from_phase ops st dU pU dV pV pS Ssc (UpdateArg.strs bU bS bV) =
        Except.ok (st2, r) ∧
      ((bU = false → st2.U = st.U) ∧ (bU = true → st2.U = ops.reconstruct dU (ops.v2m pU))) ∧
      ((bV = false → st2.V = st.V) ∧ (bV = true → st2.V = ops.reconstruct dV (ops.v2m pV))) ∧
      ((bS = false → st2.S = st.S) ∧ (bS = true → st2.S = cosMulGrid ops pS Ssc)) ∧
      r = (st2.U, st2.S, st2.V) ∧ st2.weight = st.weight) := by
  constructor
  · rw [build_weight_from_phase_strs]
    refine ⟨_, _, rfl, ⟨?_, ?_⟩, ⟨?_, ?_⟩, ⟨?_, ?_⟩, rfl, rfl⟩ <;> intro h <;> simp [h]
  · rw [build_usv_from_phase_strs]
    refine ⟨_, _, rfl, ⟨?_, ?_⟩, ⟨?_, ?_⟩, ⟨?_, ?_⟩, rfl, rfl⟩ <;> intro h <;> simp [h]

/-- Claim C8 witness: with an empty update_list every cached factored-form
    tensor is reused, evaluated on a concrete layer. -/
theorem C8_update_list_frame_witness :
    ∃ st' w', build_weight_from_phase opsQ stQ stQ.delta_list_U stQ.phase_U
        stQ.delta_list_V stQ.phase_V stQ.phase_S (UpdateArg.strs false false false) =
        Except.ok (st', w') ∧
      st'.U = stQ.U ∧ st'.V = stQ.V ∧ st'.S = stQ.S ∧ w' = usvMulGrid stQ.U stQ.S stQ.V := by
  obtain ⟨⟨st', w', h, ⟨hU0, _⟩, ⟨hV0, _⟩, ⟨hS0, _⟩, hw, _⟩, _⟩ :=
    C8_update_list_frame opsQ stQ stQ.delta_list_U stQ.phase_U stQ.delta_list_V
      stQ.phase_V stQ.phase_S stQ.S_scale false false false
  refine ⟨st', w', h, hU0 rfl, hV0 rfl, hS0 rfl, ?_⟩
  rw [hw, hU0 rfl, hV0 rfl, hS0 rfl]

end ClaimTheorems

section ClaimTheoremsTwo

variable {F : Type} [LinearOrderedField F] {R C k : ℕ}

/-- Claim C2 counterexample: a phase-mode layer with bit-width 32 and gamma
    noise std 1 (so the claim's condition "bit-width < 16 or gamma noise or
    crosstalk enabled" holds).  The claim demands the quantizers be applied
    during the sync_parameters(src="phase") materialization; the source gates
    that branch's quantization on bit-width < 16 alone (line 473), so the
    stored phases are used unquantized. -/
theorem C2_sync_quantizer_gate_counterexample :
    (stGamma.w_bit < 16 ∨ noiseEps < stGamma.gamma_noise_std ∨
      noiseEps < stGamma.crosstalk_factor) ∧
    syncPhaseLocals opsQ stGamma = (stGamma.phase_U, stGamma.phase_S, stGamma.phase_V) ∧
    syncPhaseLocals opsQ stGamma ≠
      (opsQ.quantU stGamma.phase_U, opsQ.quantS stGamma.phase_S,
        opsQ.quantV stGamma.phase_V) := by
  have hcond : noiseEps < stGamma.gamma_noise_std := by norm_num [noiseEps, stGamma, stQ]
  have hw : ¬ (stGamma.w_bit < 16) := by norm_num [stGamma, stQ]
  have hn : ¬ (noiseEps < stGamma.phase_noise_std) := by norm_num [noiseEps, stGamma, stQ]
  have heq : syncPhaseLocals opsQ stGamma =
      (stGamma.phase_U, stGamma.phase_S, stGamma.phase_V) := by
    unfold syncPhaseLocals
    rw [if_neg hw, if_neg hn]
  refine ⟨Or.inr (Or.inl hcond), heq, ?_⟩
  intro hq
  rw [heq] at hq
  have h2 : stGamma.phase_S 0 0 0 = opsQ.quantS stGamma.phase_S 0 0 0 := by
    have h3 := congrArg (fun x => x.2.1 0 0 0) hq
    simpa using h3
  norm_num [stGamma, stQ, opsQ] at h2

/-- Claim C2 (amended): build_weight in phase mode applies the quantizers
    exactly when bit-width < 16 or gamma noise > 1e-5 or crosstalk > 1e-5,
    otherwise it uses the stored phases unchanged (phase noise disabled
    here); sync_parameters(src="phase") applies them exactly when
    bit-width < 16, and its reconstruction then fails with the tensor
    membership error because S_scale is passed positionally as update_list. -/
theorem C2_quantizer_gating_amended (ops : Ops F R C k) (st : LayerState F R C k)
    (hmode : st.mode = Mode.phase) (hnoise : ¬ (noiseEps < st.phase_noise_std)) :
    (∃ st' w', build_weight ops st fullUpdate = Except.ok (st', w') ∧
      st'.U = ops.reconstruct st.delta_list_U (ops.v2m
        (if st.w_bit < 16 ∨ noiseEps < st.gamma_noise_std ∨ noiseEps < st.crosstalk_factor
          then ops.quantU st.phase_U else st.phase_U)) ∧
      st'.S = cosMulGrid ops
        (if st.w_bit < 16 ∨ noiseEps < st.gamma_noise_std ∨ noiseEps < st.crosstalk_factor
          then ops.quantS st.phase_S else st.phase_S) st.S_scale ∧
      st'.V = ops.reconstruct st.delta_list_V (ops.v2m
        (if st.w_bit < 16 ∨ noiseEps < st.gamma_noise_std ∨ noiseEps < st.crosstalk_factor
          then ops.quantV st.phase_V else st.phase_V)) ∧
      w' = usvMulGrid st'.U st'.S st'.V) ∧
    syncPhaseLocals ops st =
      ((if st.w_bit < 16 then ops.quantU st.phase_U else st.phase_U),
       (if st.w_bit < 16 then ops.quantS st.phase_S else st.phase_S),
       (if st.w_bit < 16 then ops.quantV st.phase_V else st.phase_V)) ∧
    sync_parameters ops st srcPhase = Except.error errTensorContains := by
  have hbw : bwPhaseLocals ops st =
      ((if st.w_bit < 16 ∨ noiseEps < st.gamma_noise_std ∨ noiseEps < st.crosstalk_factor
          then ops.quantU st.phase_U else st.phase_U),
       (if st.w_bit < 16 ∨ noiseEps < st.gamma_noise_std ∨ noiseEps < st.crosstalk_factor
          then ops.quantS st.phase_S else st.phase_S),
       (if st.w_bit < 16 ∨ noiseEps < st.gamma_noise_std ∨ noiseEps < st.crosstalk_factor
          then ops.quantV st.phase_V else st.phase_V)) := by
    unfold bwPhaseLocals
    rw [if_neg hnoise]
    by_cases hc : st.w_bit < 16 ∨ noiseEps < st.gamma_noise_std ∨ noiseEps < st.crosstalk_factor
    · rw [if_pos hc, if_pos hc, if_pos hc, if_pos hc]
    · rw [if_neg hc, if_neg hc, if_neg hc, if_neg hc]
  have hsync : syncPhaseLocals ops st =
      ((if st.w_bit < 16 then ops.quantU st.phase_U else st.phase_U),
       (if st.w_bit < 16 then ops.quantS st.phase_S else st.phase_S),
       (if st.w_bit < 16 then ops.quantV st.phase_V else st.phase_V)) := by
    unfold syncPhaseLocals
    rw [if_neg hnoise]
    by_cases hw : st.w_bit < 16
    · rw [if_pos hw, if_pos hw, if_pos hw, if_pos hw]
    · rw [if_neg hw, if_neg hw, if_neg hw, if_neg hw]
  refine ⟨?_, hsync, rfl⟩
  rw [build_weight_phase_eq ops st _ hmode, hbw,
    show fullUpdate = UpdateArg.strs true true true from rfl, build_weight_from_phase_strs]
  exact ⟨_, _, rfl, by simp, by simp, by simp, rfl⟩

/-- Claim C2 witness: the sync_parameters(src="phase") failure evaluated on a
    concrete phase-mode layer. -/
theorem C2_quantizer_gating_amended_witness :
    sync_parameters opsQ stQ srcPhase = Except.error errTensorContains :=
  (C2_quantizer_gating_amended opsQ stQ rfl (by norm_num [noiseEps, stQ])).2.2

/-- Claim C10: whatever the configuration, the phase_S value a weight
    materialization uses for reconstruction is either the quantized or the
    raw stored phase_S — the additive truncated-gaussian phase perturbation
    is never applied to it (the noise maps of ops are universally
    quantified and absent from the S path), in build_weight (whose resulting
    S buffer is rebuilt exactly from that noise-free phase_S) and in the
    phase locals of sync_parameters(src="phase"); when phase noise is
    enabled, phase_U and phase_V do receive the additive noise. -/
theorem C10_phaseS_noise_protected (ops : Ops F R C k) (st : LayerState F R C k) :
    ((bwPhaseLocals ops st).2.1 = ops.quantS st.phase_S ∨
      (bwPhaseLocals ops st).2.1 = st.phase_S) ∧
    ((syncPhaseLocals ops st).2.1 = ops.quantS st.phase_S ∨
      (syncPhaseLocals ops st).2.1 = st.phase_S) ∧
    (st.mode = Mode.phase →
      ∃ st' w', build_weight ops st fullUpdate = Except.ok (st', w') ∧
        st'.S = cosMulGrid ops (bwPhaseLocals ops st).2.1 st.S_scale) ∧
    (noiseEps < st.phase_noise_std →
      ((bwPhaseLocals ops st).1 = addNoiseU ops (ops.quantU st.phase_U) ∨
        (bwPhaseLocals ops st).1 = addNoiseU ops st.phase_U) ∧
      ((bwPhaseLocals ops st).2.2 = addNoiseV ops (ops.quantV st.phase_V) ∨
        (bwPhaseLocals ops st).2.2 = addNoiseV ops st.phase_V)) := by
  refine ⟨?_, ?_, ?_, ?_⟩
  · unfold bwPhaseLocals
    by_cases hc : st.w_bit < 16 ∨ noiseEps < st.gamma_noise_std ∨
        noiseEps < st.crosstalk_factor <;>
      by_cases hn : noiseEps < st.phase_noise_std <;> simp [hc, hn]
  · unfold syncPhaseLocals
    by_cases hw : st.w_bit < 16 <;>
      by_cases hn : noiseEps < st.phase_noise_std <;> simp [hw, hn]
  · intro hmode
    rw [build_weight_phase_eq ops st _ hmode,
      show fullUpdate = UpdateArg.strs true true true from rfl, build_weight_from_phase_strs]
    exact ⟨_, _, rfl, by simp⟩
  · intro hn
    unfold bwPhaseLocals
    by_cases hc : st.w_bit < 16 ∨ noiseEps < st.gamma_noise_std ∨
        noiseEps < st.crosstalk_factor <;> simp [hc, hn]

/-- Claim C10 witness: the noise-free S path of build_weight evaluated on a
    concrete phase-mode layer. -/
theorem C10_phaseS_noise_protected_witness :
    ∃ st' w', build_weight opsQ stQ fullUpdate = Except.ok (st', w') ∧
      st'.S = cosMulGrid opsQ (bwPhaseLocals opsQ stQ).2.1 stQ.S_scale :=
  (C10_phaseS_noise_protected opsQ stQ).2.2.1 rfl

end ClaimTheoremsTwo

section ClaimTheoremsThree

variable {F : Type} [LinearOrderedField F] {R C k : ℕ}

/-- Claim C1: with quantization and noise disabled (the conversion-chain
    methods apply neither quantizers nor noise), converting
    weight -> factored -> phase via build_phase_from_weight and rebuilding
    via build_weight_from_phase (which ends in build_weight_from_usv)
    reproduces the original dense weight exactly in the real-arithmetic
    model, hence within the 1e-4 tolerance per block entry.  The hypotheses
    are the contracts of the external collaborators: torch.linalg.svd
    factors the weight exactly with nonnegative singular values and each
    block has a positive largest singular value (a nonzero block), the
    spec-modelled decomposer round-trip law holds on the two factors, and
    cos after acos is the identity on [-1, 1] (true of the real arccos and
    cos, as the witness instantiates). -/
theorem C1_weight_phase_weight_roundtrip (ops : Ops F R C k) (st : LayerState F R C k)
    (w : Grid R C (Blk k F))
    (hlaw : ∀ x : F, -1 ≤ x → x ≤ 1 → ops.cos (ops.acos x) = x)
    (hsvd : ExactSVD ops w)
    (hpos : ∀ i j, 0 < absMaxVec ((ops.svd w).2.1 i j))
    (hUrt : DecomposerRoundTrip ops (ops.svd w).1)
    (hVrt : DecomposerRoundTrip ops (ops.svd w).2.2) :
    ∃ st' w',
      build_weight_from_phase ops (build_phase_from_weight ops st w).1
          ((build_phase_from_weight ops st w).1).delta_list_U
          ((build_phase_from_weight ops st w).1).phase_U
          ((build_phase_from_weight ops st w).1).delta_list_V
          ((build_phase_from_weight ops st w).1).phase_V
          ((build_phase_from_weight ops st w).1).phase_S
          fullUpdate = Except.ok (st', w') ∧
        w' = w ∧ ∀ i j a b, |w' i j a b - w i j a b| ≤ 1 / 10000 := by
  unfold ExactSVD at hsvd
  obtain ⟨hmul, hnn⟩ := hsvd
  unfold DecomposerRoundTrip at hUrt hVrt
  have hS' : cosMulGrid ops
      (divAcosGrid ops (ops.svd w).2.1 (absMaxGrid (ops.svd w).2.1))
      (absMaxGrid (ops.svd w).2.1) = (ops.svd w).2.1 := by
    funext i j t
    have hm : 0 < absMaxVec ((ops.svd w).2.1 i j) := hpos i j
    have h1 : (0 : F) ≤ (ops.svd w).2.1 i j t / absMaxVec ((ops.svd w).2.1 i j) :=
      div_nonneg (hnn i j t) hm.le
    have h2 : (ops.svd w).2.1 i j t / absMaxVec ((ops.svd w).2.1 i j) ≤ 1 :=
      (div_le_one hm).mpr (le_trans (le_abs_self _) (le_absMaxVec _ t))
    show ops.cos (ops.acos ((ops.svd w).2.1 i j t / absMaxVec ((ops.svd w).2.1 i j))) *
        absMaxVec ((ops.svd w).2.1 i j) = (ops.svd w).2.1 i j t
    rw [hlaw _ (by linarith) h2]
    exact div_mul_cancel₀ _ (ne_of_gt hm)
  have hww : usvMulGrid
      (ops.reconstruct (ops.decompose (ops.svd w).1).1
        (ops.v2m (ops.m2v (ops.decompose (ops.svd w).1).2)))
      (cosMulGrid ops (divAcosGrid ops (ops.svd w).2.1 (absMaxGrid (ops.svd w).2.1))
        (absMaxGrid (ops.svd w).2.1))
      (ops.reconstruct (ops.decompose (ops.svd w).2.2).1
        (ops.v2m (ops.m2v (ops.decompose (ops.svd w).2.2).2))) = w := by
    rw [hUrt, hVrt, hS']
    exact hmul
  rw [build_phase_from_weight_fst,
    show fullUpdate = UpdateArg.strs true true true from rfl,
    build_weight_from_phase_strs]
  refine ⟨_, usvMulGrid
      (ops.reconstruct (ops.decompose (ops.svd w).1).1
        (ops.v2m (ops.m2v (ops.decompose (ops.svd w).1).2)))
      (cosMulGrid ops (divAcosGrid ops (ops.svd w).2.1 (absMaxGrid (ops.svd w).2.1))
        (absMaxGrid (ops.svd w).2.1))
      (ops.reconstruct (ops.decompose (ops.svd w).2.2).1
        (ops.v2m (ops.m2v (ops.decompose (ops.svd w).2.2).2))), rfl, hww, ?_⟩
  intro i j a b
  rw [hww, sub_self, abs_zero]
  norm_num

/-- Claim C1 witness: the exact weight -> phase -> weight round trip over the
    reals with the genuine arccos and cos, on a concrete nonzero weight. -/
theorem C1_weight_phase_weight_roundtrip_witness :
    ∃ st' w',
      build_weight_from_phase opsR (build_phase_from_weight opsR stR wR).1
          ((build_phase_from_weight opsR stR wR).1).delta_list_U
          ((build_phase_from_weight opsR stR wR).1).phase_U
          ((build_phase_from_weight opsR stR wR).1).delta_list_V
          ((build_phase_from_weight opsR stR wR).1).phase_V
          ((build_phase_from_weight opsR stR wR).1).phase_S
          fullUpdate = Except.ok (st', w') ∧
        w' = wR ∧ ∀ i j a b, |w' i j a b - wR i j a b| ≤ 1 / 10000 := by
  have hsvd : ExactSVD opsR wR := by
    unfold ExactSVD
    constructor
    · funext i j a b
      show (∑ t : Fin 1, (1 : ℝ) * (2 * 1)) = 2
      simp
    · intro i j t
      show (0 : ℝ) ≤ 2
      norm_num
  have hpos : ∀ i j : Fin 1, 0 < absMaxVec ((opsR.svd wR).2.1 i j) := by
    intro i j
    show (0 : ℝ) < absMaxVec (fun _ : Fin 1 => (2 : ℝ))
    have habs : absMaxVec (fun _ : Fin 1 => (2 : ℝ)) = max |(2 : ℝ)| 0 := by
      simp [absMaxVec, List.ofFn_succ, List.ofFn_zero]
    rw [habs]
    exact lt_max_iff.mpr (Or.inl (by norm_num))
  exact C1_weight_phase_weight_roundtrip opsR stR wR
    (fun x h1 h2 => Real.cos_arccos h1 h2) hsvd hpos rfl rfl

end ClaimTheoremsThree

section ClaimTheoremsFour

variable {F : Type} [LinearOrderedField F] {out inflat : ℕ}

/-- Claim C9: from_layer places the flattened pretrained weight in the
    top-left [out, in_channels_flat] region of the zero-initialized padded
    grid (every padding cell is exactly 0), stores the block tiling of that
    padded matrix as the instance weight, and performs the single
    sync_parameters(src="weight") call, after which the factored form
    (U, S, V) is the SVD of the tiled weight and the phase form (delta
    lists, condensed phase vectors, S_scale, phase_S) is derived from that
    factored form — i.e. the final state is exactly one application of
    build_phase_from_weight to the tiled weight. -/
theorem C9_from_layer_populates (k : ℕ) (ops : Ops F (ceilDiv out k) (ceilDiv inflat k) k)
    (st0 : LayerState F (ceilDiv out k) (ceilDiv inflat k) k)
    (Wd : Fin out → Fin inflat → F) :
    (from_layer k ops st0 Wd).weight = tileWeight k Wd ∧
    (∀ (i : Fin (ceilDiv out k)) (j : Fin (ceilDiv inflat k)) (a b : Fin k)
        (h1 : i.1 * k + a.1 < out) (h2 : j.1 * k + b.1 < inflat),
      tileWeight k Wd i j a b = Wd ⟨i.1 * k + a.1, h1⟩ ⟨j.1 * k + b.1, h2⟩) ∧
    (∀ (i : Fin (ceilDiv out k)) (j : Fin (ceilDiv inflat k)) (a b : Fin k),
      (out ≤ i.1 * k + a.1 ∨ inflat ≤ j.1 * k + b.1) → tileWeight k Wd i j a b = 0) ∧
    (from_layer k ops st0 Wd).U = (ops.svd (tileWeight k Wd)).1 ∧
    (from_layer k ops st0 Wd).S = (ops.svd (tileWeight k Wd)).2.1 ∧
    (from_layer k ops st0 Wd).V = (ops.svd (tileWeight k Wd)).2.2 ∧
    (from_layer k ops st0 Wd).delta_list_U = (ops.decompose (ops.svd (tileWeight k Wd)).1).1 ∧
    (from_layer k ops st0 Wd).phase_U = ops.m2v (ops.decompose (ops.svd (tileWeight k Wd)).1).2 ∧
    (from_layer k ops st0 Wd).delta_list_V = (ops.decompose (ops.svd (tileWeight k Wd)).2.2).1 ∧
    (from_layer k ops st0 Wd).phase_V = ops.m2v (ops.decompose (ops.svd (tileWeight k Wd)).2.2).2 ∧
    (from_layer k ops st0 Wd).S_scale = absMaxGrid (ops.svd (tileWeight k Wd)).2.1 ∧
    (from_layer k ops st0 Wd).phase_S = divAcosGrid ops (ops.svd (tileWeight k Wd)).2.1
      (absMaxGrid (ops.svd (tileWeight k Wd)).2.1) ∧
    from_layer k ops st0 Wd =
      (build_phase_from_weight ops { st0 with weight := tileWeight k Wd } (tileWeight k Wd)).1 := by
  refine ⟨rfl, ?_, ?_, rfl, rfl, rfl, rfl, rfl, rfl, rfl, rfl, rfl, rfl⟩
  · intro i j a b h1 h2
    show paddedEntry Wd (i.1 * k + a.1) (j.1 * k + b.1) = _
    unfold paddedEntry
    rw [dif_pos (And.intro h1 h2)]
  · intro i j a b h
    show paddedEntry Wd (i.1 * k + a.1) (j.1 * k + b.1) = 0
    unfold paddedEntry
    rcases h with h | h
    · rw [dif_neg fun hc => absurd hc.1 (not_lt.mpr h)]
    · rw [dif_neg fun hc => absurd hc.2 (not_lt.mpr h)]

/-- Claim C9 witness: the pretrained weight entry lands in the corresponding
    block cell of the converted instance, on a concrete 1 x 1 layer. -/
theorem C9_from_layer_populates_witness :
    (from_layer 1 opsQ stQ wdQ).weight ⟨0, by decide⟩ ⟨0, by decide⟩ ⟨0, by decide⟩
        ⟨0, by decide⟩ = wdQ ⟨0, by decide⟩ ⟨0, by decide⟩ := by
  have h := C9_from_layer_populates 1 opsQ stQ wdQ
  have h1 := congrFun (congrFun (congrFun (congrFun h.1 ⟨0, by decide⟩) ⟨0, by decide⟩)
    ⟨0, by decide⟩) ⟨0, by decide⟩
  have h2 := h.2.1 ⟨0, by decide⟩ ⟨0, by decide⟩ ⟨0, by decide⟩ ⟨0, by decide⟩
    (by decide) (by decide)
  exact h1.trans h2

end ClaimTheoremsFour
